import Mathlib

/-
Shallow embedding of the mod-synchronization core of `src/ModSyncer.py`.

Modelling conventions:
- Python `dict` values used as version metadata become association lists
  (`Dict`); Python's falsiness of `None` and of the empty dict/string is
  modelled explicitly where the source tests `if not x`.
- Python `Optional` results become `Option`; a method that can raise is
  modelled as returning `PyResult`, whose `exn` constructor carries the
  exception message.  `try/except` blocks in the source become pattern
  matches on `PyResult`.
- Filesystem paths (`os.path.join`) become lists of path components
  (`FPath`); the filesystem itself is an association list from paths to
  byte contents, where a write prepends the newest binding.
- The `ThreadPoolExecutor` / `as_completed` machinery is modelled in two
  complementary ways: the aggregation of completed results is a fold over
  an arbitrary completion order (a list constrained, in the theorems, to
  be a permutation of the submitted attempts), and the bounded worker pool
  itself is a small-step transition relation `PoolStep` over `PoolState`.
-/

namespace MSync

/-- A JSON-ish dictionary with string values, as used for version metadata. -/
abbrev Dict := List (String × String)

/-- A filesystem path, as a list of components (`os.path.join` appends one). -/
abbrev FPath := List String

/-- File contents as a list of byte values. -/
abbrev Bytes := List Nat

/-- Result of a Python call that may raise: a value or an exception message. -/
inductive PyResult (α : Type) where
  | ok (val : α)
  | exn (msg : String)
deriving DecidableEq

/-- An HTTP response as consumed by `CurseForgeRepository`: the status code
(`raise_for_status` raises iff it is at least 400), the raw body bytes
(`response.content`) and the parsed JSON `data` list
(`response.json().get('data', [])`). -/
structure HttpResponse where
  status : Nat
  content : Bytes
  data_list : List Dict
deriving DecidableEq

/-- Result of an HTTP `GET`: either a transport/auth exception or a response. -/
inductive HttpResult where
  | exn (msg : String)
  | resp (r : HttpResponse)
deriving DecidableEq

/-- The HTTP layer: a function from URL and query parameters to a result. -/
abbrev Http := String → List (String × String) → HttpResult

/-- One successfully synchronized mod, as built by `ModSyncer._sync_single_mod`:
the dict `{'mod_id': ..., 'version': ..., 'download_path': ...}`. -/
structure SyncResult where
  mod_id : String
  version : Dict
  download_path : FPath
deriving DecidableEq

/-- A detected conflict; `ModConflictDetector.detect_conflicts` promises a
`List[Dict]`, so a conflict is a dictionary. -/
abbrev Conflict := Dict

/-- The synchronization report built by `ModSyncer.sync_mods`:
`{'updated_mods': [...], 'failed_mods': [...], 'conflicts': [...]}`. -/
structure Report where
  updated_mods : List SyncResult
  failed_mods : List String
  conflicts : List Conflict
deriving DecidableEq

/-- `ModConflictDetector`: holds the mods directory it was constructed with. -/
structure ModConflictDetector where
  mods_directory : FPath
deriving DecidableEq

/-- `ModConflictDetector.detect_conflicts`: the placeholder implementation
initializes `conflicts = []` and returns it unchanged, regardless of the
detector's state.  It takes no argument describing which mods were synced. -/
def detect_conflicts (detector : ModConflictDetector) : List Conflict :=
  []

/-- The repository capability consumed by the coordinator
(`ModRepository`'s two overridable methods).  Either method may raise
(modelled by `PyResult.exn`) or return `None` (modelled by `none`). -/
structure Repo where
  get_latest_version : String → String → PyResult (Option Dict)
  download_mod : String → Dict → PyResult (Option FPath)

/-- The `ModSyncer` object: `__init__` stores the mods directory, the target
Minecraft version, the repository list and a fresh `ModConflictDetector`
over the mods directory. -/
structure ModSyncer where
  mods_directory : FPath
  minecraft_version : String
  repositories : List Repo
  conflict_detector : ModConflictDetector

/-- `ModSyncer.__init__`: the conflict detector is constructed over the same
mods directory. -/
def mkModSyncer (mods_directory : FPath) (minecraft_version : String)
    (repositories : List Repo) : ModSyncer :=
  ModSyncer.mk mods_directory minecraft_version repositories
    (ModConflictDetector.mk mods_directory)

/-- `ModSyncer._sync_single_mod`: resolve the latest version via the
repository, bail out with `None` if it is falsy (`None` or the empty dict),
otherwise download; bail out with `None` if the returned path is falsy;
otherwise return the result dict.  The surrounding `try/except` converts any
raised exception into `None`. -/
def sync_single_mod (minecraft_version : String) (mod_id : String) (repo : Repo) :
    Option SyncResult :=
  match repo.get_latest_version mod_id minecraft_version with
  | PyResult.exn _ => none
  | PyResult.ok none => none
  | PyResult.ok (some latest_version) =>
    if latest_version = [] then none
    else
      match repo.download_mod mod_id latest_version with
      | PyResult.exn _ => none
      | PyResult.ok none => none
      | PyResult.ok (some download_path) =>
        if download_path = [] then none
        else some (SyncResult.mk mod_id latest_version download_path)

/-- The attempts submitted to the executor by `ModSyncer.sync_mods`: one
future per `(mod_id, repo)` pair, produced by the two nested `for` loops
(outer over `mod_list`, inner over `self.repositories`, with no early exit). -/
def sync_attempts (mod_list : List String) (repositories : List Repo) :
    List (String × Repo) :=
  mod_list.flatMap (fun mod_id => repositories.map (fun repo => (mod_id, repo)))

/-- Processing of one completed future in `ModSyncer.sync_mods`: a truthy
result is appended to `updated_mods`, a falsy result (or a raised exception
surfaced by `future.result()`) appends the attempt's `mod_id` to
`failed_mods`. -/
def record_outcome (minecraft_version : String) (report : Report)
    (attempt : String × Repo) : Report :=
  match sync_single_mod minecraft_version attempt.1 attempt.2 with
  | some result =>
    Report.mk (report.updated_mods ++ [result]) report.failed_mods report.conflicts
  | none =>
    Report.mk report.updated_mods (report.failed_mods ++ [attempt.1]) report.conflicts

/-- `ModSyncer.sync_mods`, instrumented with the list of conflict-detector
invocations it performs.  `completion_order` models the order in which
`as_completed` delivers the submitted futures; a faithful run instantiates it
with a permutation of `sync_attempts mod_list syncer.repositories`.  After the
fold over completed attempts, `detect_conflicts` is called exactly once, with
no information about the attempts, and its result is stored in `conflicts`. -/
def sync_mods_run (syncer : ModSyncer) (mod_list : List String)
    (completion_order : List (String × Repo)) :
    Report × List ModConflictDetector :=
  let report := completion_order.foldl (record_outcome syncer.minecraft_version)
    (Report.mk [] [] [])
  (Report.mk report.updated_mods report.failed_mods
      (detect_conflicts syncer.conflict_detector),
    [syncer.conflict_detector])

/-- `ModSyncer.sync_mods`: the report it returns. -/
def sync_mods (syncer : ModSyncer) (mod_list : List String)
    (completion_order : List (String × Repo)) : Report :=
  (sync_mods_run syncer mod_list completion_order).1

/-- The package identifiers appearing anywhere in a report: inside `Synced`
entries of `updated_mods`, or as entries of `failed_mods`. -/
def reportMods (report : Report) : List String :=
  report.updated_mods.map SyncResult.mod_id ++ report.failed_mods

/-- The package identifiers appearing in `updated_mods` (the synced ones). -/
def syncedIds (report : Report) : List String :=
  report.updated_mods.map SyncResult.mod_id

/-
The concrete `CurseForgeRepository` backend, modelled over an abstract HTTP
layer and an explicit filesystem.
-/

/-- `CurseForgeRepository.BASE_URL`. -/
def BASE_URL : String := "https://api.curseforge.com/v1"

/-- The URL requested by `CurseForgeRepository.get_latest_version`:
`f"{BASE_URL}/mods/{mod_id}/files"`. -/
def files_url (mod_id : String) : String :=
  BASE_URL ++ "/mods/" ++ mod_id ++ "/files"

/-- The query parameters sent by `CurseForgeRepository.get_latest_version`. -/
def cf_files_params (minecraft_version : String) : List (String × String) :=
  [("gameVersion", minecraft_version), ("sortOrder", "desc"), ("pageSize", "1")]

/-- A `CurseForgeRepository` instance: its constructor arguments (the API key
kept in the request headers, and the `cache_dir` root passed to
`ModRepository.__init__`). -/
structure CurseForgeRepository where
  api_key : String
  cache_dir_root : FPath
deriving DecidableEq

/-- Python `str.lower()`, character by character (class names are ASCII). -/
def py_lower (s : String) : String :=
  String.mk (s.data.map Char.toLower)

/-- `ModRepository.__init__`: the instance's cache directory is the given
root joined with the lower-cased *class* name
(`os.path.join(cache_dir, self.__class__.__name__.lower())`). -/
def repo_cache_dir (cache_dir : FPath) (class_name : String) : FPath :=
  cache_dir ++ [py_lower class_name]

/-- The cache directory of a `CurseForgeRepository` instance. -/
def cf_cache_dir (cf : CurseForgeRepository) : FPath :=
  repo_cache_dir cf.cache_dir_root "CurseForgeRepository"

/-- `CurseForgeRepository.get_latest_version`: `GET {BASE_URL}/mods/{id}/files`
with the version filter parameters; `raise_for_status` raises on status ≥ 400;
`versions[0] if versions else None` on the JSON `data` list.  The `try/except`
around the whole body turns every raised exception into `None` — the same
value returned when no compatible version exists. -/
def cf_get_latest_version (http : Http) (cf : CurseForgeRepository)
    (mod_id minecraft_version : String) : Option Dict :=
  match http (files_url mod_id) (cf_files_params minecraft_version) with
  | HttpResult.exn _ => none
  | HttpResult.resp r =>
    if 400 ≤ r.status then none
    else r.data_list.head?

/-- The filesystem: an association list from paths to contents; a write
prepends the newest binding (the model of `open(path, 'wb')` truncating and
rewriting the file). -/
abbrev FileSystem := List (FPath × Bytes)

/-- Look a path up in the filesystem (newest binding wins). -/
def fs_lookup (fs : FileSystem) (p : FPath) : Option Bytes :=
  fs.lookup p

/-- The file path used by `CurseForgeRepository.download_mod`:
`os.path.join(self.cache_dir, 'downloads', version_info['fileName'])`.
It depends only on the instance's cache directory and the resolved file
name — not on the mod identifier. -/
def cf_download_file_path (cf : CurseForgeRepository) (filename : String) : FPath :=
  cf_cache_dir cf ++ ["downloads", filename]

/-- `CurseForgeRepository.download_mod`: read `downloadUrl` and `fileName`
from the version dict (a missing key raises `KeyError`, caught by the
`except` and converted to `None`), `GET` the download URL,
`raise_for_status`, then write `response.content` — whatever its length —
to the downloads path and return that path.  Any raised exception is caught
and converted to `None`, leaving the filesystem without the new file. -/
def cf_download_mod (http : Http) (cf : CurseForgeRepository) (fs : FileSystem)
    (mod_id : String) (version_info : Dict) : Option FPath × FileSystem :=
  match version_info.lookup "downloadUrl" with
  | none => (none, fs)
  | some download_url =>
    match version_info.lookup "fileName" with
    | none => (none, fs)
    | some filename =>
      let file_path := cf_download_file_path cf filename
      match http download_url [] with
      | HttpResult.exn _ => (none, fs)
      | HttpResult.resp r =>
        if 400 ≤ r.status then (none, fs)
        else (some file_path, (file_path, r.content) :: fs)

/-- `ModSyncer._sync_single_mod` specialized to a `CurseForgeRepository`
backend, with the filesystem threaded through the download: the same control
flow as `sync_single_mod`, but the resolve/fetch operations are the concrete
CurseForge ones. -/
def cf_sync_single_mod (http : Http) (minecraft_version : String)
    (cf : CurseForgeRepository) (fs : FileSystem) (mod_id : String) :
    Option SyncResult × FileSystem :=
  match cf_get_latest_version http cf mod_id minecraft_version with
  | none => (none, fs)
  | some latest_version =>
    if latest_version = [] then (none, fs)
    else
      match cf_download_mod http cf fs mod_id latest_version with
      | (none, fs2) => (none, fs2)
      | (some download_path, fs2) =>
        if download_path = [] then (none, fs2)
        else (some (SyncResult.mk mod_id latest_version download_path), fs2)

/-
The bounded worker pool: `ModSyncer.sync_mods` runs all attempts under
`ThreadPoolExecutor(max_workers=5)`.  The pool is modelled as a small-step
transition relation: a pending attempt may start only while fewer than
`max_workers` attempts are running, and a running attempt may finish,
recording the outcome computed by `_sync_single_mod`.
-/

/-- The `max_workers` argument of the executor created by
`ModSyncer.sync_mods`. -/
def sync_max_workers : Nat := 5

/-- A state of the worker pool during one `sync_mods` call: attempts not yet
started, attempts currently in flight, and completed attempts with their
outcomes. -/
structure PoolState where
  pending : List (String × Repo)
  running : List (String × Repo)
  finished : List (String × Option SyncResult)

/-- One scheduling step of the thread pool: `start` moves the next pending
attempt into the running set, and is enabled only while strictly fewer than
`max_workers` attempts are running; `finish` completes any running attempt,
recording the outcome `_sync_single_mod` produces for it. -/
inductive PoolStep (max_workers : Nat) (minecraft_version : String) :
    PoolState → PoolState → Prop where
  | start (t : String × Repo) (rest running : List (String × Repo))
      (finished : List (String × Option SyncResult))
      (h : running.length < max_workers) :
      PoolStep max_workers minecraft_version
        (PoolState.mk (t :: rest) running finished)
        (PoolState.mk rest (t :: running) finished)
  | finish (pending : List (String × Repo)) (l r : List (String × Repo))
      (t : String × Repo) (finished : List (String × Option SyncResult)) :
      PoolStep max_workers minecraft_version
        (PoolState.mk pending (l ++ t :: r) finished)
        (PoolState.mk pending (l ++ r)
          ((t.1, sync_single_mod minecraft_version t.1 t.2) :: finished))

/-- The states the pool of one `sync_mods` call can reach: the reflexive
transitive closure of `PoolStep` with ceiling `sync_max_workers`, from the
initial state in which every `(mod_id, repo)` attempt is pending. -/
def pool_reachable (minecraft_version : String) (mod_list : List String)
    (repositories : List Repo) (s : PoolState) : Prop :=
  Relation.ReflTransGen (PoolStep sync_max_workers minecraft_version)
    (PoolState.mk (sync_attempts mod_list repositories) [] []) s

/-
Concrete fixtures for the counterexamples and witnesses below.
-/

/-- A version dict as returned by a backend: a download URL and a file name. -/
def vi_a_jar : Dict := [("downloadUrl", "u"), ("fileName", "a.jar")]

/-- A backend whose resolve and fetch both succeed. -/
def good_repo : Repo :=
  Repo.mk (fun _ _ => PyResult.ok (some vi_a_jar))
    (fun _ _ => PyResult.ok (some ["mod_cache", "downloads", "a.jar"]))

/-- A backend whose resolve reports not-found for every mod. -/
def notfound_repo : Repo :=
  Repo.mk (fun _ _ => PyResult.ok none) (fun _ _ => PyResult.ok none)

/-- A backend whose resolve raises a connection error for every mod. -/
def fail_repo : Repo :=
  Repo.mk (fun _ _ => PyResult.exn "ConnectionError") (fun _ _ => PyResult.ok none)

/-- A syncer configured with no repositories at all. -/
def syncer_norepos : ModSyncer := mkModSyncer ["mods"] "1.19.2" []

/-- A syncer configured with the always-succeeding backend. -/
def syncer_good : ModSyncer := mkModSyncer ["mods"] "1.19.2" [good_repo]

/-- A syncer configured with the always-not-found backend. -/
def syncer_notfound : ModSyncer := mkModSyncer ["mods"] "1.19.2" [notfound_repo]

/-- A syncer configured with the always-raising backend. -/
def syncer_fail : ModSyncer := mkModSyncer ["mods"] "1.19.2" [fail_repo]

/-- A CurseForge instance under test. -/
def cf_test : CurseForgeRepository :=
  CurseForgeRepository.mk "APIKEY" ["mod_cache"]

/-- An HTTP layer that raises a connection error on every request. -/
def http_fault : Http := fun _ _ => HttpResult.exn "ConnectionError"

/-- An HTTP layer that answers every request with `200` and an empty JSON
`data` list: the ordinary no-compatible-version condition. -/
def http_no_match : Http := fun _ _ => HttpResult.resp (HttpResponse.mk 200 [] [])

/-- An HTTP layer for which mod `324006` resolves to `vi_a_jar` and the
artifact download succeeds with an *empty* body. -/
def http_empty_body : Http := fun url _ =>
  if url = files_url "324006" then HttpResult.resp (HttpResponse.mk 200 [] [vi_a_jar])
  else HttpResult.resp (HttpResponse.mk 200 [] [])

/-- An HTTP layer for which mod `238222` resolves to `vi_a_jar` and the
artifact download succeeds with a non-empty body. -/
def http_full_body : Http := fun url _ =>
  if url = files_url "238222" then HttpResult.resp (HttpResponse.mk 200 [] [vi_a_jar])
  else HttpResult.resp (HttpResponse.mk 200 [3, 1, 4] [])

/-
Helper lemmas about the aggregation fold.
-/

/-- A successful attempt result carries the attempt's own mod identifier. -/
theorem sync_single_mod_mod_id (minecraft_version mod_id : String) (repo : Repo)
    (res : SyncResult)
    (h : sync_single_mod minecraft_version mod_id repo = some res) :
    res.mod_id = mod_id := by
  unfold sync_single_mod at h
  repeat' split at h
  all_goals try exact Option.noConfusion h
  injection h with h2
  subst h2
  rfl

/-- Recording one more outcome preserves every identifier already present. -/
theorem reportMods_record_outcome_mono (minecraft_version : String)
    (report : Report) (attempt : String × Repo) (x : String)
    (hx : x ∈ reportMods report) :
    x ∈ reportMods (record_outcome minecraft_version report attempt) := by
  unfold record_outcome
  rcases hres : sync_single_mod minecraft_version attempt.1 attempt.2 with _ | res <;>
    simp only [hres] <;> unfold reportMods at hx ⊢
  · rcases List.mem_append.mp hx with h1 | h1
    · exact List.mem_append.mpr (Or.inl h1)
    · exact List.mem_append.mpr (Or.inr (List.mem_append.mpr (Or.inl h1)))
  · rcases List.mem_append.mp hx with h1 | h1
    · refine List.mem_append.mpr (Or.inl ?_)
      rw [List.map_append]
      exact List.mem_append.mpr (Or.inl h1)
    · exact List.mem_append.mpr (Or.inr h1)

/-- The fold over any completion order preserves every identifier already
present in the accumulator. -/
theorem reportMods_foldl_mono (minecraft_version : String)
    (order : List (String × Repo)) (report : Report) (x : String)
    (hx : x ∈ reportMods report) :
    x ∈ reportMods (order.foldl (record_outcome minecraft_version) report) := by
  induction order generalizing report with
  | nil => exact hx
  | cons a rest ih =>
    exact ih _ (reportMods_record_outcome_mono minecraft_version report a x hx)

/-- Recording an attempt's outcome puts that attempt's identifier into the
report, whichever branch is taken. -/
theorem mem_reportMods_record_outcome (minecraft_version : String)
    (report : Report) (mod_id : String) (repo : Repo) :
    mod_id ∈ reportMods (record_outcome minecraft_version report (mod_id, repo)) := by
  unfold record_outcome
  cases h : sync_single_mod minecraft_version mod_id repo with
  | none => simp [reportMods]
  | some res =>
    have hres := sync_single_mod_mod_id minecraft_version mod_id repo res h
    simp [reportMods, hres]

/-- Every attempt processed by the fold leaves its identifier in the report. -/
theorem mem_reportMods_foldl (minecraft_version : String)
    (order : List (String × Repo)) (report : Report) (mod_id : String) (repo : Repo)
    (h : (mod_id, repo) ∈ order) :
    mod_id ∈ reportMods (order.foldl (record_outcome minecraft_version) report) := by
  induction order generalizing report with
  | nil => cases h
  | cons a rest ih =>
    rcases List.mem_cons.mp h with h1 | h2
    · subst h1
      exact reportMods_foldl_mono minecraft_version rest _ mod_id
        (mem_reportMods_record_outcome minecraft_version report mod_id repo)
    · exact ih _ h2

/-- The identifiers of the returned report are the identifiers accumulated by
the fold: the final `conflicts` write touches neither `updated_mods` nor
`failed_mods`. -/
theorem reportMods_sync_mods (syncer : ModSyncer) (mod_list : List String)
    (order : List (String × Repo)) :
    reportMods (sync_mods syncer mod_list order) =
      reportMods (order.foldl (record_outcome syncer.minecraft_version)
        (Report.mk [] [] [])) := rfl

/-- Likewise for the `failed_mods` component alone. -/
theorem failed_sync_mods (syncer : ModSyncer) (mod_list : List String)
    (order : List (String × Repo)) :
    (sync_mods syncer mod_list order).failed_mods =
      (order.foldl (record_outcome syncer.minecraft_version)
        (Report.mk [] [] [])).failed_mods := rfl

/-- Membership in the submitted attempt list. -/
theorem mem_sync_attempts (mod_list : List String) (repositories : List Repo)
    (mod_id : String) (repo : Repo) (hm : mod_id ∈ mod_list)
    (hr : repo ∈ repositories) :
    (mod_id, repo) ∈ sync_attempts mod_list repositories := by
  unfold sync_attempts
  exact List.mem_flatMap.mpr ⟨mod_id, hm, List.mem_map.mpr ⟨repo, hr, rfl⟩⟩

/-
Claim theorems.
-/

/-- C1: for every sync call with a non-empty package list and at least one
backend, under any completion order of the submitted attempts, every input
package identifier appears at least once in the returned report — inside a
Synced entry of `updated_mods` or as an entry of `failed_mods` — so no
requested package is silently dropped. -/
theorem sync_mods_coverage (syncer : ModSyncer) (mod_list : List String)
    (order : List (String × Repo)) (hml : mod_list ≠ [])
    (hrs : syncer.repositories ≠ [])
    (hperm : order.Perm (sync_attempts mod_list syncer.repositories)) :
    ∀ mod_id ∈ mod_list, mod_id ∈ reportMods (sync_mods syncer mod_list order) := by
  intro mod_id hm
  obtain ⟨repo, hr⟩ := List.exists_mem_of_ne_nil syncer.repositories hrs
  have hatt := mem_sync_attempts mod_list syncer.repositories mod_id repo hm hr
  have hord : (mod_id, repo) ∈ order := hperm.mem_iff.mpr hatt
  rw [reportMods_sync_mods]
  exact mem_reportMods_foldl syncer.minecraft_version order _ mod_id repo hord

/-- Witness for C1: a concrete run with one package and one backend. -/
theorem sync_mods_coverage_witness :
    "324006" ∈ reportMods (sync_mods syncer_good ["324006"]
      (sync_attempts ["324006"] syncer_good.repositories)) :=
  sync_mods_coverage syncer_good ["324006"]
    (sync_attempts ["324006"] syncer_good.repositories)
    (by simp) (by simp [syncer_good, mkModSyncer]) (List.Perm.refl _) "324006" (by simp)

/-- C2 counterexample: requesting mod `324006` with zero backends yields a
report whose `failed_mods` is empty — the package is *not* recorded as
failed, contradicting the claim. -/
theorem sync_mods_zero_backends_drops :
    (sync_mods syncer_norepos ["324006"] []).failed_mods = [] ∧
    "324006" ∉ (sync_mods syncer_norepos ["324006"] []).failed_mods := by decide

/-- C2 (amended): with a non-empty package list and an empty backend list no
attempts are generated, the call does not raise (the model is a total
function), and the returned report has empty `updated_mods` and
`failed_mods` — the requested packages are silently dropped, not recorded
as failed. -/
theorem sync_mods_empty_backends (syncer : ModSyncer) (mod_list : List String)
    (order : List (String × Repo)) (hrs : syncer.repositories = [])
    (hperm : order.Perm (sync_attempts mod_list syncer.repositories)) :
    sync_mods syncer mod_list order = Report.mk [] [] [] := by
  have hatt : sync_attempts mod_list syncer.repositories = [] := by
    simp [sync_attempts, hrs]
  rw [hatt] at hperm
  have hord : order = [] := hperm.eq_nil
  subst hord
  rfl

/-- Witness for the amended C2: the concrete zero-backend run. -/
theorem sync_mods_empty_backends_witness :
    sync_mods syncer_norepos ["324006"] [] = Report.mk [] [] [] :=
  sync_mods_empty_backends syncer_norepos ["324006"] [] rfl (List.Perm.refl _)

/-- Recording one outcome grows `updated_mods ++ failed_mods` by exactly one
entry, whichever branch is taken. -/
theorem outcome_count_record (minecraft_version : String) (report : Report)
    (attempt : String × Repo) :
    (record_outcome minecraft_version report attempt).updated_mods.length +
      (record_outcome minecraft_version report attempt).failed_mods.length =
      report.updated_mods.length + report.failed_mods.length + 1 := by
  unfold record_outcome
  rcases hres : sync_single_mod minecraft_version attempt.1 attempt.2 with _ | res <;>
    simp [hres] <;> omega

/-- The fold adds exactly one outcome entry per completed attempt. -/
theorem outcome_count_foldl (minecraft_version : String)
    (order : List (String × Repo)) (report : Report) :
    (order.foldl (record_outcome minecraft_version) report).updated_mods.length +
      (order.foldl (record_outcome minecraft_version) report).failed_mods.length =
      report.updated_mods.length + report.failed_mods.length + order.length := by
  induction order generalizing report with
  | nil => simp
  | cons a rest ih =>
    simp only [List.foldl_cons, List.length_cons]
    rw [ih, outcome_count_record]
    omega

/-- The number of submitted attempts is `packages × backends`. -/
theorem sync_attempts_length (mod_list : List String) (repositories : List Repo) :
    (sync_attempts mod_list repositories).length =
      mod_list.length * repositories.length := by
  induction mod_list with
  | nil => simp [sync_attempts]
  | cons m rest ih =>
    simp only [sync_attempts, List.flatMap_cons, List.length_append, List.length_map,
      List.length_cons] at ih ⊢
    rw [ih]
    ring

/-- C3: a sync call over P packages and B backends schedules exactly P × B
attempts — one per (package, backend) pair, with no short-circuit — and each
attempt contributes exactly one outcome, so `updated_mods` and `failed_mods`
together have exactly P × B entries. -/
theorem sync_mods_attempt_count (syncer : ModSyncer) (mod_list : List String)
    (order : List (String × Repo))
    (hperm : order.Perm (sync_attempts mod_list syncer.repositories)) :
    (sync_attempts mod_list syncer.repositories).length =
      mod_list.length * syncer.repositories.length ∧
    (sync_mods syncer mod_list order).updated_mods.length +
      (sync_mods syncer mod_list order).failed_mods.length =
      mod_list.length * syncer.repositories.length := by
  have hlen := hperm.length_eq
  have hatt := sync_attempts_length mod_list syncer.repositories
  refine ⟨hatt, ?_⟩
  have hcount := outcome_count_foldl syncer.minecraft_version order (Report.mk [] [] [])
  have hu : (sync_mods syncer mod_list order).updated_mods =
      (order.foldl (record_outcome syncer.minecraft_version)
        (Report.mk [] [] [])).updated_mods := rfl
  have hf := failed_sync_mods syncer mod_list order
  rw [hu, hf, hcount]
  simp only [List.length_nil, Nat.zero_add]
  rw [hlen, hatt]

/-- Witness for C3: two packages, one backend, 2 × 1 = 2 outcome entries. -/
theorem sync_mods_attempt_count_witness :
    (sync_attempts ["324006", "238222"] syncer_good.repositories).length =
      (["324006", "238222"] : List String).length * syncer_good.repositories.length ∧
    (sync_mods syncer_good ["324006", "238222"]
        (sync_attempts ["324006", "238222"] syncer_good.repositories)).updated_mods.length +
      (sync_mods syncer_good ["324006", "238222"]
        (sync_attempts ["324006", "238222"] syncer_good.repositories)).failed_mods.length =
      (["324006", "238222"] : List String).length * syncer_good.repositories.length :=
  sync_mods_attempt_count syncer_good ["324006", "238222"]
    (sync_attempts ["324006", "238222"] syncer_good.repositories) (List.Perm.refl _)

/-- The faults an attempt can suffer, phrased on the backend's observable
behaviour at that attempt: the resolve call raises, reports not-found
(`None`), or returns a falsy (empty) version dict; or resolve succeeds and
the download call raises, returns `None`, or returns a falsy path. -/
def attempt_faults (minecraft_version mod_id : String) (repo : Repo) : Prop :=
  (∃ e, repo.get_latest_version mod_id minecraft_version = PyResult.exn e) ∨
  repo.get_latest_version mod_id minecraft_version = PyResult.ok none ∨
  repo.get_latest_version mod_id minecraft_version = PyResult.ok (some []) ∨
  (∃ vi, repo.get_latest_version mod_id minecraft_version = PyResult.ok (some vi) ∧
    vi ≠ [] ∧
    ((∃ e, repo.download_mod mod_id vi = PyResult.exn e) ∨
     repo.download_mod mod_id vi = PyResult.ok none ∨
     repo.download_mod mod_id vi = PyResult.ok (some [])))

/-- Any attempt fault makes `_sync_single_mod` return `None` rather than
letting the fault escape: the faults are caught at the attempt boundary. -/
theorem sync_single_mod_eq_none_of_faults (minecraft_version mod_id : String)
    (repo : Repo) (hf : attempt_faults minecraft_version mod_id repo) :
    sync_single_mod minecraft_version mod_id repo = none := by
  unfold sync_single_mod
  rcases hf with ⟨e, he⟩ | h | h | ⟨vi, hvi, hne, hdl⟩
  · rw [he]
  · rw [h]
  · rw [h]
    simp
  · rw [hvi]
    simp only [if_neg hne]
    rcases hdl with ⟨e, he⟩ | h | h
    · rw [he]
    · rw [h]
    · rw [h]
      simp

/-- Recording one more outcome preserves every `failed_mods` entry. -/
theorem failed_record_outcome_mono (minecraft_version : String)
    (report : Report) (attempt : String × Repo) (x : String)
    (hx : x ∈ report.failed_mods) :
    x ∈ (record_outcome minecraft_version report attempt).failed_mods := by
  unfold record_outcome
  rcases hres : sync_single_mod minecraft_version attempt.1 attempt.2 with _ | res <;>
    simp only [hres]
  · exact List.mem_append.mpr (Or.inl hx)
  · exact hx

/-- The fold preserves every `failed_mods` entry of the accumulator. -/
theorem failed_foldl_mono (minecraft_version : String)
    (order : List (String × Repo)) (report : Report) (x : String)
    (hx : x ∈ report.failed_mods) :
    x ∈ (order.foldl (record_outcome minecraft_version) report).failed_mods := by
  induction order generalizing report with
  | nil => exact hx
  | cons a rest ih =>
    exact ih _ (failed_record_outcome_mono minecraft_version report a x hx)

/-- An attempt whose outcome is `None` contributes its identifier to
`failed_mods` once processed by the fold. -/
theorem mem_failed_foldl (minecraft_version : String)
    (order : List (String × Repo)) (report : Report) (mod_id : String)
    (repo : Repo) (h : (mod_id, repo) ∈ order)
    (hnone : sync_single_mod minecraft_version mod_id repo = none) :
    mod_id ∈ (order.foldl (record_outcome minecraft_version) report).failed_mods := by
  induction order generalizing report with
  | nil => cases h
  | cons a rest ih =>
    rcases List.mem_cons.mp h with h1 | h2
    · subst h1
      simp only [List.foldl_cons]
      refine failed_foldl_mono minecraft_version rest _ mod_id ?_
      unfold record_outcome
      simp only [hnone]
      simp
    · exact ih _ h2

/-- C4: `sync_mods` never raises for individual attempt failures — in the
model the call is a total function — and every fault occurring during an
attempt's resolve or fetch (not-found, resolution fault, fetch fault, or any
raised exception) is caught at the attempt boundary, turning the attempt's
outcome into `None` and recording the package in `failed_mods` rather than
propagating to the caller. -/
theorem sync_mods_faults_to_failed (syncer : ModSyncer) (mod_list : List String)
    (order : List (String × Repo)) (mod_id : String) (repo : Repo)
    (hperm : order.Perm (sync_attempts mod_list syncer.repositories))
    (hm : mod_id ∈ mod_list) (hr : repo ∈ syncer.repositories)
    (hf : attempt_faults syncer.minecraft_version mod_id repo) :
    sync_single_mod syncer.minecraft_version mod_id repo = none ∧
    mod_id ∈ (sync_mods syncer mod_list order).failed_mods := by
  have hnone := sync_single_mod_eq_none_of_faults syncer.minecraft_version mod_id repo hf
  refine ⟨hnone, ?_⟩
  have hatt := mem_sync_attempts mod_list syncer.repositories mod_id repo hm hr
  have hord : (mod_id, repo) ∈ order := hperm.mem_iff.mpr hatt
  rw [failed_sync_mods]
  exact mem_failed_foldl syncer.minecraft_version order _ mod_id repo hord hnone

/-- Witness for C4: a backend whose resolve raises a connection error; the
exception is converted into a `failed_mods` entry. -/
theorem sync_mods_faults_to_failed_witness :
    sync_single_mod syncer_fail.minecraft_version "324006" fail_repo = none ∧
    "324006" ∈ (sync_mods syncer_fail ["324006"]
      (sync_attempts ["324006"] syncer_fail.repositories)).failed_mods :=
  sync_mods_faults_to_failed syncer_fail ["324006"]
    (sync_attempts ["324006"] syncer_fail.repositories) "324006" fail_repo
    (List.Perm.refl _) (by simp) (by simp [syncer_fail, mkModSyncer])
    (Or.inl ⟨"ConnectionError", rfl⟩)

/-- C5 counterexample: two sync calls whose reports have different synced
package sets (one syncs `324006`, the other syncs nothing) nevertheless
perform *identical* conflict-detector invocations — the detector call takes
no package argument, only the construction-time detector state — so the
analyzer cannot be receiving the set of synced package identifiers. -/
theorem analyzer_input_ignores_synced :
    (sync_mods_run syncer_good ["324006"]
        (sync_attempts ["324006"] syncer_good.repositories)).2 =
      (sync_mods_run syncer_notfound ["324006"]
        (sync_attempts ["324006"] syncer_notfound.repositories)).2 ∧
    syncedIds (sync_mods_run syncer_good ["324006"]
        (sync_attempts ["324006"] syncer_good.repositories)).1 = ["324006"] ∧
    syncedIds (sync_mods_run syncer_notfound ["324006"]
        (sync_attempts ["324006"] syncer_notfound.repositories)).1 = [] := by
  refine ⟨rfl, rfl, rfl⟩

/-- C5 (amended): the conflict detector is invoked exactly once per sync
call, after the fold over all completed attempts, and its result becomes the
report's `conflicts`; but it receives no package-set argument at all — the
invocation carries only the detector constructed over the mods directory,
independent of which packages were synced. -/
theorem sync_mods_analyzer_once (syncer : ModSyncer) (mod_list : List String)
    (order : List (String × Repo)) :
    (sync_mods_run syncer mod_list order).2 = [syncer.conflict_detector] ∧
    (sync_mods_run syncer mod_list order).1.conflicts =
      detect_conflicts syncer.conflict_detector :=
  ⟨rfl, rfl⟩

/-- C6 counterexample: a transport fault (`ConnectionError`) and an ordinary
no-compatible-version response (HTTP 200 with an empty `data` list) produce
the *same* observable result `none` from `get_latest_version` — the two
conditions are conflated rather than reported as distinct signals. -/
theorem cf_resolve_conflation_example :
    cf_get_latest_version http_fault cf_test "324006" "1.19.2" = none ∧
    cf_get_latest_version http_no_match cf_test "324006" "1.19.2" = none ∧
    cf_get_latest_version http_fault cf_test "324006" "1.19.2" =
      cf_get_latest_version http_no_match cf_test "324006" "1.19.2" :=
  ⟨rfl, rfl, rfl⟩

/-- C6 (amended): `get_latest_version` does not raise for a no-compatible-
version condition, but it returns the same `None` both for that condition
and when the HTTP layer faults: the failure signal is not distinct from the
not-found result (the two are distinguished only in a log message). -/
theorem cf_resolve_conflates (http : Http) (cf : CurseForgeRepository)
    (mod_id minecraft_version : String)
    (h : (∃ e, http (files_url mod_id) (cf_files_params minecraft_version) =
            HttpResult.exn e) ∨
         (∃ r, http (files_url mod_id) (cf_files_params minecraft_version) =
            HttpResult.resp r ∧ r.status < 400 ∧ r.data_list = [])) :
    cf_get_latest_version http cf mod_id minecraft_version = none := by
  unfold cf_get_latest_version
  rcases h with ⟨e, he⟩ | ⟨r, hr, hst, hdata⟩
  · rw [he]
  · rw [hr]
    have hnle : ¬ 400 ≤ r.status := by omega
    simp [hnle, hdata]

/-- Witness for the amended C6: the fault side at a concrete input. -/
theorem cf_resolve_conflates_witness :
    cf_get_latest_version http_fault cf_test "238222" "1.19.2" = none :=
  cf_resolve_conflates http_fault cf_test "238222" "1.19.2"
    (Or.inl ⟨"ConnectionError", rfl⟩)

/-- Looking up a freshly written path returns the bytes just written. -/
theorem fs_lookup_write (fs : FileSystem) (p : FPath) (b : Bytes) :
    fs_lookup ((p, b) :: fs) p = some b := by
  simp [fs_lookup, List.lookup]

/-- When `download_mod` succeeds, the returned path was just written to the
filesystem (its contents are whatever body the HTTP layer delivered). -/
theorem cf_download_mod_writes (http : Http) (cf : CurseForgeRepository)
    (fs : FileSystem) (mod_id : String) (version_info : Dict) (p : FPath)
    (fs2 : FileSystem)
    (h : cf_download_mod http cf fs mod_id version_info = (some p, fs2)) :
    ∃ content, fs_lookup fs2 p = some content := by
  unfold cf_download_mod at h
  repeat' split at h
  all_goals simp only [Prod.mk.injEq] at h
  all_goals try exact Option.noConfusion h.1
  obtain ⟨h1, h2⟩ := h
  injection h1 with h1
  subst h1
  subst h2
  exact ⟨_, fs_lookup_write _ _ _⟩

/-- C7 (amended): every `Synced` outcome produced by a CurseForge attempt
carries an `artifact_path` that exists in the filesystem at the moment the
outcome is produced; its contents are exactly the downloaded body, which may
be empty, so non-emptiness is not guaranteed. -/
theorem cf_synced_artifact_exists (http : Http) (minecraft_version : String)
    (cf : CurseForgeRepository) (fs : FileSystem) (mod_id : String)
    (res : SyncResult) (fs2 : FileSystem)
    (h : cf_sync_single_mod http minecraft_version cf fs mod_id = (some res, fs2)) :
    ∃ content, fs_lookup fs2 res.download_path = some content := by
  unfold cf_sync_single_mod at h
  repeat' split at h
  all_goals simp only [Prod.mk.injEq] at h
  all_goals try exact Option.noConfusion h.1
  obtain ⟨h1, h2⟩ := h
  injection h1 with h1
  subst h1
  subst h2
  exact cf_download_mod_writes http cf fs mod_id _ _ _ (by assumption)

/-- C7 counterexample: with a download response of `200` and an *empty*
body, the attempt for mod `324006` produces a `Synced` outcome whose
artifact file exists but holds zero bytes at the moment the outcome is
produced. -/
theorem cf_synced_artifact_empty_file :
    (cf_sync_single_mod http_empty_body "1.19.2" cf_test [] "324006").1 =
      some (SyncResult.mk "324006" vi_a_jar (cf_download_file_path cf_test "a.jar")) ∧
    fs_lookup (cf_sync_single_mod http_empty_body "1.19.2" cf_test [] "324006").2
      (cf_download_file_path cf_test "a.jar") = some [] := by
  exact ⟨by decide, by decide⟩

/-- Witness for the amended C7: a concrete successful download. -/
theorem cf_synced_artifact_exists_witness :
    ∃ content, fs_lookup
        [(cf_download_file_path cf_test "a.jar", [3, 1, 4])]
        (SyncResult.mk "238222" vi_a_jar
          (cf_download_file_path cf_test "a.jar")).download_path = some content :=
  cf_synced_artifact_exists http_full_body "1.19.2" cf_test [] "238222"
    (SyncResult.mk "238222" vi_a_jar (cf_download_file_path cf_test "a.jar"))
    [(cf_download_file_path cf_test "a.jar", [3, 1, 4])] (by decide)

/-- C8 counterexample: two distinct CurseForge instances built over the same
cache root share the same scratch directory (it is derived from the class
name, not the instance), and two *different* packages whose resolved
metadata carries the same `fileName` are written to the *same* file path, so
their fetches can overwrite each other's output. -/
theorem cf_shared_scratch_and_colliding_paths :
    CurseForgeRepository.mk "key1" ["mod_cache"] ≠
      CurseForgeRepository.mk "key2" ["mod_cache"] ∧
    cf_cache_dir (CurseForgeRepository.mk "key1" ["mod_cache"]) =
      cf_cache_dir (CurseForgeRepository.mk "key2" ["mod_cache"]) ∧
    ("324006" : String) ≠ "238222" ∧
    (cf_download_mod http_no_match cf_test [] "324006" vi_a_jar).1 =
      (cf_download_mod http_no_match cf_test [] "238222" vi_a_jar).1 ∧
    (cf_download_mod http_no_match cf_test [] "324006" vi_a_jar).1 =
      some (cf_download_file_path cf_test "a.jar") := by decide

/-- C8 (amended): the scratch directory is one per (cache root, class name)
pair — every CurseForge instance over the same root shares it, regardless of
instance identity — and a fetch's file path depends only on the resolved
`fileName`, not on the package: paths are distinct exactly when the file
names differ. -/
theorem cf_scratch_dir_and_paths :
    (∀ (k1 k2 : String) (root : FPath),
      cf_cache_dir (CurseForgeRepository.mk k1 root) =
        cf_cache_dir (CurseForgeRepository.mk k2 root)) ∧
    (∀ (cf : CurseForgeRepository) (f1 f2 : String), f1 ≠ f2 →
      cf_download_file_path cf f1 ≠ cf_download_file_path cf f2) ∧
    (∀ (http : Http) (cf : CurseForgeRepository) (fs : FileSystem)
       (m1 m2 : String) (vi : Dict),
      (cf_download_mod http cf fs m1 vi).1 = (cf_download_mod http cf fs m2 vi).1) := by
  refine ⟨fun k1 k2 root => rfl, ?_, fun http cf fs m1 m2 vi => rfl⟩
  intro cf f1 f2 hne heq
  unfold cf_download_file_path at heq
  have h2 := (List.append_right_inj _).mp heq
  simp at h2
  exact hne h2

/-- Witness for the amended C8: shared directory and distinct file names at
concrete inputs. -/
theorem cf_scratch_dir_and_paths_witness :
    cf_cache_dir (CurseForgeRepository.mk "key1" ["mod_cache"]) =
      cf_cache_dir (CurseForgeRepository.mk "key2" ["mod_cache"]) ∧
    cf_download_file_path cf_test "a.jar" ≠ cf_download_file_path cf_test "b.jar" :=
  ⟨cf_scratch_dir_and_paths.1 "key1" "key2" ["mod_cache"],
   cf_scratch_dir_and_paths.2.1 cf_test "a.jar" "b.jar" (by decide)⟩

/-- C9: all attempts of a sync call run under the fixed pool with
`max_workers = 5`: whatever the number of scheduled (package, backend)
attempts, every state the pool can reach has at most 5 attempts in flight
simultaneously. -/
theorem sync_pool_bounded (minecraft_version : String) (mod_list : List String)
    (repositories : List Repo) (s : PoolState)
    (h : pool_reachable minecraft_version mod_list repositories s) :
    sync_max_workers = 5 ∧ s.running.length ≤ 5 := by
  refine ⟨rfl, ?_⟩
  unfold pool_reachable at h
  induction h with
  | refl => simp
  | tail hab hbc ih =>
    cases hbc with
    | start t rest running finished hlt =>
      have h5 : running.length < 5 := hlt
      simp only [List.length_cons]
      omega
    | finish pending l r t finished =>
      simp only [List.length_append, List.length_cons] at ih ⊢
      omega

/-- Witness for C9: the initial state of a concrete sync call. -/
theorem sync_pool_bounded_witness :
    sync_max_workers = 5 ∧
    (PoolState.mk (sync_attempts ["324006"] [notfound_repo]) [] []).running.length ≤ 5 :=
  sync_pool_bounded "1.19.2" ["324006"] [notfound_repo] _ Relation.ReflTransGen.refl

/-- C10: the bundled conflict detector unconditionally returns the empty
list, so the `conflicts` sequence of every report returned by `sync_mods` is
empty, regardless of syncer configuration, package list and completion
order. -/
theorem sync_mods_conflicts_empty :
    (∀ detector : ModConflictDetector, detect_conflicts detector = []) ∧
    ∀ (syncer : ModSyncer) (mod_list : List String)
      (order : List (String × Repo)),
      (sync_mods syncer mod_list order).conflicts = [] :=
  ⟨fun _ => rfl, fun _ _ _ => rfl⟩

end MSync
